import Mathlib

/-!
Shallow embedding of the gamescope-x11-client library (src/lib.rs, src/atoms.rs,
src/x11.rs, src/xwayland.rs).

The X server visible through a connection is modelled as an explicit state
(window properties and window children); a RustConnection handle is modelled as
that state.  Fallible Rust functions returning Result become Except String;
functions taking Option values follow the source's unwrap_or_default chains.
External inputs (the filesystem directory listing, the outcome of
x11rb::connect, the event stream of the watcher thread) are passed as explicit
parameters.
-/

namespace GamescopeX11

/-- X11 window identifiers are u32 values; property values are cardinal (u32)
sequences.  We use Nat, since no arithmetic overflows occur anywhere in the
embedded code (values are only stored, compared and moved). -/
abbrev WindowId := Nat

/-- The state of one X server as visible through a connection: the cardinal
properties of each window (keyed by the property's string name), the child
lists returned by QueryTree, and the root window of the screen. -/
structure XServer where
  props : WindowId → String → Option (List Nat)
  children : WindowId → List WindowId
  root : WindowId

/-- The part of an x11rb GetPropertyReply used by get_property in src/x11.rs:
the reported value length and the decoded 32-bit values. -/
structure GetPropertyReply where
  value_len : Nat
  value32 : List Nat

/-- The reply a live X server produces for a GetProperty request with type
CARDINAL and format 32: absent properties report a zero value length, present
properties report their items. -/
def serverReply (srv : XServer) (window_id : WindowId) (key : String) : GetPropertyReply :=
  match srv.props window_id key with
  | none => ⟨0, []⟩
  | some vs => ⟨vs.length, vs⟩

/-- get_property from src/x11.rs (lines 65-94), over an abstract transport
exchange (atom interning plus the GetProperty request/reply round trip, which
can fail).  On a successful exchange, a zero value_len decodes to None and
anything else to the collected 32-bit values. -/
def get_property (exchange : WindowId → String → Except String GetPropertyReply)
    (window_id : WindowId) (key : String) : Except String (Option (List Nat)) :=
  match exchange window_id key with
  | .error e => .error e
  | .ok value =>
    if value.value_len = 0 then .ok none
    else .ok (some value.value32)

/-- get_property against a live, reliable server: the exchange succeeds and
returns the server's reply.  This is the form the Session operations use. -/
def x11_get_property (srv : XServer) (window_id : WindowId) (key : String) :
    Option (List Nat) :=
  let value := serverReply srv window_id key
  if value.value_len = 0 then none
  else some value.value32

/-- has_property from src/x11.rs (lines 52-61). -/
def x11_has_property (srv : XServer) (window_id : WindowId) (key : String) : Bool :=
  (x11_get_property srv window_id key).isSome

/-- PropMode of the X11 ChangeProperty request. -/
inductive PropMode where
  | Replace
  | Append
  | Prepend
deriving DecidableEq

/-- change_property from src/x11.rs (lines 136-162): replace, append to, or
prepend to the 32-bit value list of the property (an absent property behaves
as the empty list). -/
def x11_change_property (srv : XServer) (window_id : WindowId) (key : String)
    (values : List Nat) (mode : PropMode) : XServer :=
  let old := (srv.props window_id key).getD []
  let newValues :=
    match mode with
    | .Replace => values
    | .Append => old ++ values
    | .Prepend => values ++ old
  { srv with
    props := fun w k => if w = window_id ∧ k = key then some newValues else srv.props w k }

/-- set_property from src/x11.rs (lines 97-107): change_property with REPLACE. -/
def x11_set_property (srv : XServer) (window_id : WindowId) (key : String)
    (values : List Nat) : XServer :=
  x11_change_property srv window_id key values PropMode.Replace

/-- remove_property from src/x11.rs (lines 165-180): delete the property. -/
def x11_remove_property (srv : XServer) (window_id : WindowId) (key : String) : XServer :=
  { srv with
    props := fun w k => if w = window_id ∧ k = key then none else srv.props w k }

/-- GamescopeAtom from src/atoms.rs. -/
inductive GamescopeAtom where
  | NetWmPID
  | Steam
  | InputCounter
  | FocusedApp
  | FocusedAppGFX
  | FocusedWindow
  | FocusableApps
  | FocusableWindows
  | FocusDisplay
  | KeyboardFocusDisplay
  | CursorVisibleFeedback
  | ExternalOverlay
  | FPSLimit
  | BlurMode
  | BlurRadius
  | AllowTearing
  | ModeControl
  | XwaylandServerId
  | BaselayerWindow
  | BaselayerAppId
  | RequestScreenshot
  | DebugRequestScreenshot
  | SteamGame
  | SteamInputFocus
  | SteamOverlay
  | SteamNotification
  | SteamStreamingClient
  | SteamStreamingClientVideo
deriving DecidableEq

/-- The strum Display serialization of each GamescopeAtom (src/atoms.rs). -/
def GamescopeAtom.to_string : GamescopeAtom → String
  | .NetWmPID => "_NET_WM_PID"
  | .Steam => "STEAM_BIGPICTURE"
  | .InputCounter => "GAMESCOPE_INPUT_COUNTER"
  | .FocusedApp => "GAMESCOPE_FOCUSED_APP"
  | .FocusedAppGFX => "GAMESCOPE_FOCUSED_APP_GFX"
  | .FocusedWindow => "GAMESCOPE_FOCUSED_WINDOW"
  | .FocusableApps => "GAMESCOPE_FOCUSABLE_APPS"
  | .FocusableWindows => "GAMESCOPE_FOCUSABLE_WINDOWS"
  | .FocusDisplay => "GAMESCOPE_FOCUS_DISPLAY"
  | .KeyboardFocusDisplay => "GAMESCOPE_KEYBOARD_FOCUS_DISPLAY"
  | .CursorVisibleFeedback => "GAMESCOPE_CURSOR_VISIBLE_FEEDBACK"
  | .ExternalOverlay => "GAMESCOPE_EXTERNAL_OVERLAY"
  | .FPSLimit => "GAMESCOPE_FPS_LIMIT"
  | .BlurMode => "GAMESCOPE_BLUR_MODE"
  | .BlurRadius => "GAMESCOPE_BLUR_RADIUS"
  | .AllowTearing => "GAMESCOPE_ALLOW_TEARING"
  | .ModeControl => "GAMESCOPE_XWAYLAND_MODE_CONTROL"
  | .XwaylandServerId => "GAMESCOPE_XWAYLAND_SERVER_ID"
  | .BaselayerWindow => "GAMESCOPECTRL_BASELAYER_WINDOW"
  | .BaselayerAppId => "GAMESCOPECTRL_BASELAYER_APPID"
  | .RequestScreenshot => "GAMESCOPECTRL_REQUEST_SCREENSHOT"
  | .DebugRequestScreenshot => "GAMESCOPECTRL_DEBUG_REQUEST_SCREENSHOT"
  | .SteamGame => "STEAM_GAME"
  | .SteamInputFocus => "STEAM_INPUT_FOCUS"
  | .SteamOverlay => "STEAM_OVERLAY"
  | .SteamNotification => "STEAM_NOTIFICATION"
  | .SteamStreamingClient => "STEAM_STREAMING_CLIENT"
  | .SteamStreamingClientVideo => "STEAM_STREAMING_CLIENT_VIDEO"

/-- Gamescope is hard-coded to look for STEAM_GAME=769 to determine if it is
the overlay app (src/xwayland.rs line 18). -/
def OVERLAY_APP_ID : Nat := 769

/-- Gamescope blur modes (src/xwayland.rs lines 21-25). -/
inductive BlurMode where
  | Off
  | Cond
  | Always
deriving DecidableEq

/-- XWayland from src/xwayland.rs (lines 29-33): a display name, an optional
connection, and the cached root window id. -/
structure XWayland where
  name : String
  conn : Option XServer
  root_window_id : WindowId

/-- XWayland::new (src/xwayland.rs lines 37-43). -/
def XWayland.new (name : String) : XWayland :=
  { name := name, conn := none, root_window_id := 0 }

/-- get_connection (src/xwayland.rs lines 54-62): error when not connected. -/
def get_connection (s : XWayland) : Except String XServer :=
  match s.conn with
  | none => .error "No connection"
  | some c => .ok c

/-- connect (src/xwayland.rs lines 65-75).  The outcome of the x11rb::connect
attempt is an explicit parameter: on error the early return leaves the session
untouched; on success the root id and connection are stored. -/
def connect (s : XWayland) (attempt : Except String XServer) :
    Except String Unit × XWayland :=
  match attempt with
  | .error e => (.error e, s)
  | .ok srv =>
    (.ok (), { s with root_window_id := srv.root, conn := some srv })

/-- has_xprop (src/xwayland.rs lines 210-217). -/
def has_xprop (s : XWayland) (window_id : WindowId) (key : GamescopeAtom) :
    Except String Bool :=
  match get_connection s with
  | .error e => .error e
  | .ok srv => .ok (x11_has_property srv window_id key.to_string)

/-- get_xprop (src/xwayland.rs lines 220-227). -/
def get_xprop (s : XWayland) (window_id : WindowId) (key : GamescopeAtom) :
    Except String (Option (List Nat)) :=
  match get_connection s with
  | .error e => .error e
  | .ok srv => .ok (x11_get_property srv window_id key.to_string)

/-- get_one_xprop (src/xwayland.rs lines 230-241): first element of the
default-empty value vector. -/
def get_one_xprop (s : XWayland) (window_id : WindowId) (key : GamescopeAtom) :
    Except String (Option Nat) :=
  match get_xprop s window_id key with
  | .error e => .error e
  | .ok value => .ok ((value.getD []).head?)

/-- set_xprop (src/xwayland.rs lines 244-254).  The write mutates the X server
behind the connection; the session after the call is returned explicitly. -/
def set_xprop (s : XWayland) (window_id : WindowId) (key : GamescopeAtom)
    (values : List Nat) : Except String XWayland :=
  match get_connection s with
  | .error e => .error e
  | .ok srv =>
    .ok { s with conn := some (x11_set_property srv window_id key.to_string values) }

/-- remove_xprop (src/xwayland.rs lines 257-266). -/
def remove_xprop (s : XWayland) (window_id : WindowId) (key : GamescopeAtom) :
    Except String XWayland :=
  match get_connection s with
  | .error e => .error e
  | .ok srv =>
    .ok { s with conn := some (x11_remove_property srv window_id key.to_string) }

/-- get_window_children (src/xwayland.rs lines 184-191): QueryTree on the
given window over the connection. -/
def get_window_children (s : XWayland) (window_id : WindowId) :
    Except String (List WindowId) :=
  match get_connection s with
  | .error e => .error e
  | .ok srv => .ok (srv.children window_id)

/-- Loop body of get_all_windows (src/xwayland.rs lines 200-206) over a list
of children: push the child, then append its recursive expansion, then the
remaining siblings.  The fuel argument bounds the recursion depth; the Rust
recursion has no such bound, so any fuel at least the number of windows in the
subtree gives the source behavior (the source diverges only on cyclic
hierarchies, which X11 excludes). -/
def get_all_windows_from (s : XWayland) : Nat → List WindowId → Except String (List WindowId)
  | _, [] => .ok []
  | 0, _ :: _ => .error "window tree recursion limit exceeded"
  | fuel + 1, child :: rest =>
    match get_window_children s child with
    | .error e => .error e
    | .ok grandchildren =>
      match get_all_windows_from s fuel grandchildren with
      | .error e => .error e
      | .ok sub =>
        match get_all_windows_from s fuel rest with
        | .error e => .error e
        | .ok tail => .ok (child :: (sub ++ tail))

/-- get_all_windows (src/xwayland.rs lines 194-207): query the children; an
empty child list returns the empty vector, otherwise each child is listed
before its own recursively collected descendants. -/
def get_all_windows (s : XWayland) (fuel : Nat) (window_id : WindowId) :
    Except String (List WindowId) :=
  match get_window_children s window_id with
  | .error e => .error e
  | .ok children =>
    if children.isEmpty then .ok []
    else get_all_windows_from s fuel children

/-- get_window_pid (src/xwayland.rs lines 269-274). -/
def get_window_pid (s : XWayland) (window_id : WindowId) : Except String (Option Nat) :=
  get_one_xprop s window_id GamescopeAtom.NetWmPID

/-- The unwrap_or_default().unwrap_or_default() chain of get_windows_for_pid:
an error or an absent property both collapse to the default pid 0. -/
def pid_or_default (r : Except String (Option Nat)) : Nat :=
  match r with
  | .error _ => 0
  | .ok none => 0
  | .ok (some p) => p

/-- get_windows_for_pid (src/xwayland.rs lines 88-103): collect all windows
below the root and keep those whose defaulted _NET_WM_PID equals pid. -/
def get_windows_for_pid (s : XWayland) (fuel : Nat) (pid : Nat) :
    Except String (List WindowId) :=
  match get_all_windows s fuel s.root_window_id with
  | .error e => .error e
  | .ok all_windows =>
    .ok (all_windows.filter fun window_id =>
      pid == pid_or_default (get_window_pid s window_id))

/-- get_focused_app (src/xwayland.rs lines 396-398). -/
def get_focused_app (s : XWayland) : Except String (Option Nat) :=
  get_one_xprop s s.root_window_id GamescopeAtom.FocusedApp

/-- is_overlay_focused (src/xwayland.rs lines 416-418). -/
def is_overlay_focused (s : XWayland) : Except String Bool :=
  match get_focused_app s with
  | .error e => .error e
  | .ok value => .ok (value.getD 0 == OVERLAY_APP_ID)

/-- set_blur_mode (src/xwayland.rs lines 452-459).  The source encodes the
mode as 0, 1 or 2 and writes it to the FPSLimit atom key. -/
def set_blur_mode (s : XWayland) (mode : BlurMode) : Except String XWayland :=
  let mode_val : Nat :=
    match mode with
    | .Off => 0
    | .Cond => 1
    | .Always => 2
  set_xprop s s.root_window_id GamescopeAtom.FPSLimit [mode_val]

/-- The atom name string that src/lib.rs probes on each root window during
discovery (the FocusableWindows marker). -/
def FOCUSABLE_WINDOWS : String := "GAMESCOPE_FOCUSABLE_WINDOWS"

/-- Body of the discovery loop of discover_gamescope_displays (src/lib.rs
lines 62-78) for one candidate display: a failed connection attempt (none) is
skipped with continue; on success the root window property is probed and the
probe result is discarded; in both cases the accumulated vector is returned
unchanged, since the source never pushes onto it. -/
def discover_gamescope_step (connect_to : String → Option XServer)
    (acc : List String) (display : String) : List String :=
  match connect_to display with
  | none => acc
  | some conn =>
    let root_window_id := conn.root
    let _probe := x11_get_property conn root_window_id FOCUSABLE_WINDOWS
    acc

/-- discover_gamescope_displays (src/lib.rs lines 54-81).  The candidate
display list (the filesystem scan of discover_x11_displays) and the outcome of
each x11rb::connect attempt are explicit parameters. -/
def discover_gamescope_displays (connect_to : String → Option XServer)
    (x11_displays : List String) : Except String (List String) :=
  let gamescope_displays : List String := []
  let gamescope_displays :=
    x11_displays.foldl (discover_gamescope_step connect_to) gamescope_displays
  .ok gamescope_displays

/-- Rust str::strip_prefix with the character X, as used in src/lib.rs line
104: Some of the remainder when the name starts with X, None otherwise.
Defined over the character list so it computes structurally. -/
def stripPrefixX (s : String) : Option String :=
  match s.data with
  | [] => none
  | c :: rest => if c = 'X' then some (String.mk rest) else none

/-- Rust str::parse into u64: an optional leading plus sign, then at least one
digit, with the value below 2 to the 64th; anything else is a parse error.
Defined over the character list so it computes structurally. -/
def parse_u64 (s : String) : Option Nat :=
  let digits :=
    match s.data with
    | c :: rest => if c = '+' then rest else s.data
    | [] => s.data
  if digits.isEmpty then none
  else if digits.all Char.isDigit then
    let n := digits.foldl (fun acc c => acc * 10 + (c.toNat - 48)) 0
    if n < 2 ^ 64 then some n else none
  else none

/-- Body of the discovery loop of discover_x11_displays (src/lib.rs lines
95-112) for one directory entry.  The source unwraps the Option returned by
strip_prefix, so a name that does not begin with X panics (modelled as none);
a name whose suffix fails the u64 parse is skipped with continue; otherwise
the display name built from the suffix is pushed. -/
def discover_x11_step (display_names : List String) (socket : String) :
    Option (List String) :=
  match stripPrefixX socket with
  | none => none
  | some suffix =>
    if (parse_u64 suffix).isNone then some display_names
    else some (display_names ++ [":" ++ suffix])

/-- discover_x11_displays (src/lib.rs lines 84-115) over the directory listing
of the X11 socket directory.  The result none models a panic of the whole
function. -/
def discover_x11_displays (socket_names : List String) : Option (List String) :=
  socket_names.foldlM discover_x11_step []

/-- The display identifier a well-formed directory entry contributes: the
suffix after X, prefixed with a colon, provided the suffix parses as u64. -/
def expected_display (socket : String) : Option String :=
  match stripPrefixX socket with
  | none => none
  | some suffix =>
    if (parse_u64 suffix).isNone then none else some (":" ++ suffix)

/-- An event delivered by wait_for_event in the watcher thread, reduced to
what the loop inspects: whether it is a PropertyNotify and for which atom. -/
inductive X11Event where
  | propertyNotify (atom : Nat)
  | other
deriving DecidableEq

/-- The watcher thread loop of listen_for_window_property_changes
(src/xwayland.rs lines 133-157), run over the trace of successive
wait_for_event outcomes.  The returned list is the full sequence of messages
sent on the channel before the thread exits: an error from wait_for_event
breaks out of the loop (nothing further is sent and the channel carries no
error value), a non-PropertyNotify event is skipped, and a PropertyNotify
sends the resolved atom name. -/
def watcher_loop (atom_name : Nat → String) :
    List (Except String X11Event) → List String
  | [] => []
  | .error _ :: _ => []
  | .ok (.propertyNotify atom) :: rest => atom_name atom :: watcher_loop atom_name rest
  | .ok .other :: rest => watcher_loop atom_name rest

/-- A window forest, the spec side of the tree-walk claims: each node is a
window id with the forest of its children, followed by its right siblings.
An acyclic window tree is represented by the forest of the root's subtrees. -/
inductive WinForest where
  | nil
  | cons (wid : WindowId) (childTrees : WinForest) (rest : WinForest)
deriving DecidableEq

/-- The ids of the top-level (root) windows of a forest, in order. -/
def WinForest.roots : WinForest → List WindowId
  | .nil => []
  | .cons wid _ rest => wid :: rest.roots

/-- Modelled from the spec: the depth-first, parent-before-descendants
enumeration of a forest; for each tree the window itself is appended to the
result, followed by the recursive expansion of its descendants, then the
remaining siblings. -/
def WinForest.preorder : WinForest → List WindowId
  | .nil => []
  | .cons wid childTrees rest => wid :: (childTrees.preorder ++ rest.preorder)

/-- The number of windows in a forest. -/
def WinForest.size : WinForest → Nat
  | .nil => 0
  | .cons _ childTrees rest => 1 + childTrees.size + rest.size

/-- Membership of a window id among the nodes of a forest. -/
def WinForest.memF (v : WindowId) : WinForest → Prop
  | .nil => False
  | .cons wid childTrees rest => v = wid ∨ childTrees.memF v ∨ rest.memF v

instance (v : WindowId) : (f : WinForest) → Decidable (f.memF v)
  | .nil => .isFalse id
  | .cons wid childTrees rest =>
    have := instDecidableMemF v childTrees
    have := instDecidableMemF v rest
    decidable_of_iff (v = wid ∨ childTrees.memF v ∨ rest.memF v) Iff.rfl

/-- A forest represents the QueryTree child map of a connection when every
node's child list in the map is exactly the list of its child subtree roots. -/
def RepresentsF (cm : WindowId → List WindowId) : WinForest → Prop
  | .nil => True
  | .cons wid childTrees rest =>
    cm wid = childTrees.roots ∧ RepresentsF cm childTrees ∧ RepresentsF cm rest

/-- The _NET_WM_PID value a connected session resolves for a window: the
first element of the property's value list, none when the property is absent
or reports no items. -/
def resolved_window_pid (srv : XServer) (window_id : WindowId) : Option Nat :=
  ((x11_get_property srv window_id GamescopeAtom.NetWmPID.to_string).getD []).head?

/-- Reads a property of the server behind a session returned by a mutating
operation: none when the operation failed or the session has no connection. -/
def result_prop (r : Except String XWayland) (window_id : WindowId) (key : String) :
    Option (List Nat) :=
  match r with
  | .error _ => none
  | .ok s =>
    match s.conn with
    | none => none
    | some srv => srv.props window_id key

/-- A server whose root window 7 carries the discovery marker property. -/
def srvMarked : XServer :=
  { props := fun w k => if w = 7 ∧ k = FOCUSABLE_WINDOWS then some [42] else none
    children := fun _ => []
    root := 7 }

/-- A connect-attempt environment where exactly display :1 is reachable and
hosts srvMarked. -/
def connectMarked : String → Option XServer :=
  fun display => if display = ":1" then some srvMarked else none

/-- A server with no properties at all and a single child window 2 below the
root window 1. -/
def srvBare : XServer :=
  { props := fun _ _ => none
    children := fun w => if w = 1 then [2] else []
    root := 1 }

/-- A session connected to srvBare. -/
def sBare : XWayland :=
  { name := ":0", conn := some srvBare, root_window_id := 1 }

/-- A server where window 2 has pid 55, window 3 has no pid property, and the
root window 1 has the children 2 and 3; the root carries a focused-app value
of 769 (the overlay sentinel). -/
def srvRich : XServer :=
  { props := fun w k =>
      if w = 2 ∧ k = "_NET_WM_PID" then some [55]
      else if w = 1 ∧ k = "GAMESCOPE_FOCUSED_APP" then some [769]
      else none
    children := fun w => if w = 1 then [2, 3] else []
    root := 1 }

/-- A session connected to srvRich. -/
def sRich : XWayland :=
  { name := ":0", conn := some srvRich, root_window_id := 1 }

/-- The forest of the subtrees below window 1 of srvRich: the windows 2 and 3,
both leaves. -/
def fRich : WinForest :=
  .cons 2 .nil (.cons 3 .nil .nil)

/-- A server with the window tree 10 -> [11, 12], 11 -> [13]. -/
def srvTree : XServer :=
  { props := fun _ _ => none
    children := fun w => if w = 10 then [11, 12] else if w = 11 then [13] else []
    root := 10 }

/-- A session connected to srvTree. -/
def sTree : XWayland :=
  { name := ":0", conn := some srvTree, root_window_id := 10 }

/-- The forest of the subtrees below window 10 of srvTree: the tree A = 11
with child C = 13, then the leaf B = 12. -/
def fTree : WinForest :=
  .cons 11 (.cons 13 .nil .nil) (.cons 12 .nil .nil)

/-! Helper lemmas shared by the tree-walk claims. -/

theorem get_window_children_connected (s : XWayland) (srv : XServer)
    (h : s.conn = some srv) (window_id : WindowId) :
    get_window_children s window_id = .ok (srv.children window_id) := by
  simp [get_window_children, get_connection, h]

theorem get_all_windows_from_ok (s : XWayland) (srv : XServer)
    (h : s.conn = some srv) :
    ∀ (f : WinForest) (fuel : Nat), RepresentsF srv.children f → f.size ≤ fuel →
      get_all_windows_from s fuel f.roots = .ok f.preorder := by
  intro f
  induction f with
  | nil =>
    intro fuel _ _
    simp [WinForest.roots, WinForest.preorder, get_all_windows_from]
  | cons wid childTrees rest ihc ihr =>
    intro fuel hrep hsize
    simp only [RepresentsF] at hrep
    obtain ⟨hcm, hrepc, hrepr⟩ := hrep
    simp only [WinForest.size] at hsize
    cases fuel with
    | zero => omega
    | succ fuel =>
      have hc := ihc fuel hrepc (by omega)
      have hr := ihr fuel hrepr (by omega)
      simp [WinForest.roots, WinForest.preorder, get_all_windows_from,
        get_window_children_connected s srv h, hcm, hc, hr]

theorem get_all_windows_ok (s : XWayland) (srv : XServer) (window_id : WindowId)
    (f : WinForest) (fuel : Nat) (hconn : s.conn = some srv)
    (hrep : RepresentsF srv.children f) (hroot : srv.children window_id = f.roots)
    (hfuel : f.size ≤ fuel) :
    get_all_windows s fuel window_id = .ok f.preorder := by
  have hwalk := get_all_windows_from_ok s srv hconn f fuel hrep hfuel
  cases f with
  | nil =>
    simp [get_all_windows, get_window_children_connected s srv hconn, hroot,
      WinForest.roots, WinForest.preorder]
  | cons wid childTrees rest =>
    simpa [get_all_windows, get_window_children_connected s srv hconn, hroot,
      WinForest.roots] using hwalk

theorem mem_preorder (f : WinForest) (v : WindowId) :
    v ∈ f.preorder ↔ f.memF v := by
  induction f with
  | nil => simp [WinForest.preorder, WinForest.memF]
  | cons wid childTrees rest ihc ihr =>
    simp [WinForest.preorder, WinForest.memF, ihc, ihr]

/-- C6: for every acyclic window tree, get_all_windows returns every proper
descendant of the queried window exactly once, in depth-first
parent-before-descendants order with siblings in query order (the spec-side
enumeration WinForest.preorder); a window with no children yields the empty
sequence (the case f = nil). -/
theorem get_all_windows_preorder_spec (s : XWayland) (srv : XServer)
    (window_id : WindowId) (f : WinForest) (fuel : Nat)
    (hconn : s.conn = some srv) (hrep : RepresentsF srv.children f)
    (hroot : srv.children window_id = f.roots) (hfuel : f.size ≤ fuel) :
    get_all_windows s fuel window_id = .ok f.preorder
    ∧ (∀ v, v ∈ f.preorder ↔ f.memF v)
    ∧ (f.preorder.Nodup → ∀ v, f.memF v → f.preorder.count v = 1) :=
  ⟨get_all_windows_ok s srv window_id f fuel hconn hrep hroot hfuel,
   fun v => mem_preorder f v,
   fun hnd v hv => List.count_eq_one_of_mem hnd ((mem_preorder f v).mpr hv)⟩

/-- Witness for C6 on the concrete tree R = 10 with children A = 11 and
B = 12, where A has the child C = 13: the walk returns exactly A, C, B. -/
theorem get_all_windows_preorder_spec_witness :
    get_all_windows sTree 5 10 = .ok [11, 13, 12] := by
  have h := get_all_windows_preorder_spec sTree srvTree 10 fTree 5 rfl
    ⟨rfl, ⟨rfl, trivial, trivial⟩, rfl, trivial, trivial⟩ rfl (by decide)
  exact h.1.trans (by rfl)

theorem get_window_pid_connected (s : XWayland) (srv : XServer)
    (h : s.conn = some srv) (window_id : WindowId) :
    get_window_pid s window_id = .ok (resolved_window_pid srv window_id) := by
  simp [get_window_pid, get_one_xprop, get_xprop, get_connection, h,
    resolved_window_pid]

theorem pid_filter_iff (s : XWayland) (srv : XServer) (h : s.conn = some srv)
    (window_id : WindowId) (pid : Nat) :
    (pid == pid_or_default (get_window_pid s window_id)) = true ↔
      (resolved_window_pid srv window_id = some pid
        ∨ (pid = 0 ∧ resolved_window_pid srv window_id = none)) := by
  rw [get_window_pid_connected s srv h window_id]
  cases hr : resolved_window_pid srv window_id with
  | none => simp [pid_or_default]
  | some p =>
    simp [pid_or_default]
    exact eq_comm

/-- C3 counterexample: the claim states that a window lacking the _NET_WM_PID
property is never returned, for any pid including 0.  On the concrete session
sBare, where window 2 below the root has no _NET_WM_PID property at all,
get_windows_for_pid with pid 0 returns window 2 anyway, because the source
collapses an absent pid to the default 0 with unwrap_or_default. -/
theorem get_windows_for_pid_zero_counterexample :
    get_windows_for_pid sBare 3 0 = .ok [2]
    ∧ srvBare.props 2 "_NET_WM_PID" = none := ⟨rfl, rfl⟩

/-- C3 amended: for every pid, get_windows_for_pid returns exactly the
descendant windows of the root whose defaulted _NET_WM_PID matches pid; a
window lacking the property is never included when pid is nonzero, but is
always included when pid is 0, since an absent property decodes to the
default value 0. -/
theorem get_windows_for_pid_spec (s : XWayland) (srv : XServer) (f : WinForest)
    (fuel : Nat) (pid : Nat) (hconn : s.conn = some srv)
    (hrep : RepresentsF srv.children f)
    (hroot : srv.children s.root_window_id = f.roots) (hfuel : f.size ≤ fuel) :
    ∃ ws, get_windows_for_pid s fuel pid = .ok ws
      ∧ ∀ v, v ∈ ws ↔ f.memF v
          ∧ (resolved_window_pid srv v = some pid
              ∨ (pid = 0 ∧ resolved_window_pid srv v = none)) := by
  have hall := get_all_windows_ok s srv s.root_window_id f fuel hconn hrep hroot hfuel
  refine ⟨f.preorder.filter
    (fun window_id => pid == pid_or_default (get_window_pid s window_id)), ?_, ?_⟩
  · simp [get_windows_for_pid, hall]
  · intro v
    rw [List.mem_filter, mem_preorder, pid_filter_iff s srv hconn v pid]

/-- Witness for the amended C3 on srvRich: pid 55 selects exactly window 2,
whose property holds 55, and not the propertyless window 3. -/
theorem get_windows_for_pid_spec_witness :
    ∃ ws, get_windows_for_pid sRich 4 55 = .ok ws
      ∧ ∀ v, v ∈ ws ↔ fRich.memF v
          ∧ (resolved_window_pid srvRich v = some 55
              ∨ (55 = 0 ∧ resolved_window_pid srvRich v = none)) :=
  get_windows_for_pid_spec sRich srvRich fRich 4 55 rfl
    ⟨rfl, trivial, rfl, trivial, trivial⟩ rfl (by decide)

/-- C4: is_overlay_focused returns true exactly when get_focused_app returns
the sentinel 769 (OVERLAY_APP_ID), and false for every other value, including
the absent case where get_focused_app returns none. -/
theorem is_overlay_focused_spec (s : XWayland) (v : Option Nat)
    (h : get_focused_app s = .ok v) :
    (is_overlay_focused s = .ok true ↔ v = some OVERLAY_APP_ID)
    ∧ (v ≠ some OVERLAY_APP_ID → is_overlay_focused s = .ok false) := by
  cases v with
  | none => simp [is_overlay_focused, h, OVERLAY_APP_ID]
  | some p =>
    by_cases hp : p = OVERLAY_APP_ID
    · simp [is_overlay_focused, h, hp]
    · simp [is_overlay_focused, h, hp, OVERLAY_APP_ID]

/-- Witness for C4 on srvRich, whose root carries the focused-app value 769:
is_overlay_focused reports true, and the sentinel equation holds. -/
theorem is_overlay_focused_spec_witness :
    (is_overlay_focused sRich = .ok true ↔ some 769 = some OVERLAY_APP_ID)
    ∧ (some 769 ≠ some OVERLAY_APP_ID → is_overlay_focused sRich = .ok false) :=
  is_overlay_focused_spec sRich (some 769) rfl

/-- C5: when the transport exchange itself succeeds with a well-formed reply
(the reported value length counts the decoded 32-bit items), get_property
returns none exactly when the reply reports a zero value length, and otherwise
the decoded non-empty sequence; absence is never an error and never an empty
sequence. -/
theorem get_property_absent_spec
    (exchange : WindowId → String → Except String GetPropertyReply)
    (window_id : WindowId) (key : String) (reply : GetPropertyReply)
    (hok : exchange window_id key = .ok reply)
    (hwf : reply.value32.length = reply.value_len) :
    (get_property exchange window_id key = .ok none ↔ reply.value_len = 0)
    ∧ (reply.value_len ≠ 0 →
        get_property exchange window_id key = .ok (some reply.value32)
        ∧ reply.value32 ≠ [])
    ∧ (∀ e, get_property exchange window_id key ≠ .error e)
    ∧ get_property exchange window_id key ≠ .ok (some []) := by
  by_cases h0 : reply.value_len = 0
  · simp [get_property, hok, h0]
  · have hne : reply.value32 ≠ [] := by
      intro hnil
      rw [hnil] at hwf
      simp at hwf
      omega
    simp [get_property, hok, h0, hne]

/-- Witness for C5 on a concrete exchange that succeeds with two items. -/
theorem get_property_absent_spec_witness :
    (get_property (fun _ _ => .ok ⟨2, [5, 6]⟩) 3 "GAMESCOPE_FPS_LIMIT" = .ok none ↔
      (2 : Nat) = 0)
    ∧ ((2 : Nat) ≠ 0 →
        get_property (fun _ _ => .ok ⟨2, [5, 6]⟩) 3 "GAMESCOPE_FPS_LIMIT" =
          .ok (some [5, 6]) ∧ ([5, 6] : List Nat) ≠ [])
    ∧ (∀ e, get_property (fun _ _ => .ok ⟨2, [5, 6]⟩) 3 "GAMESCOPE_FPS_LIMIT" ≠ .error e)
    ∧ get_property (fun _ _ => .ok ⟨2, [5, 6]⟩) 3 "GAMESCOPE_FPS_LIMIT" ≠ .ok (some []) :=
  get_property_absent_spec (fun _ _ => .ok ⟨2, [5, 6]⟩) 3 "GAMESCOPE_FPS_LIMIT"
    ⟨2, [5, 6]⟩ rfl rfl

/-- C7: every property operation and every tree operation on a Session whose
conn is none fails with the No connection error instead of succeeding, and no
operation establishes a connection (each operation borrows the session
immutably and only reads the stored conn, which get_connection rejects). -/
theorem disconnected_session_ops_fail (s : XWayland) (h : s.conn = none) :
    (∀ w key, has_xprop s w key = .error "No connection")
    ∧ (∀ w key, get_xprop s w key = .error "No connection")
    ∧ (∀ w key, get_one_xprop s w key = .error "No connection")
    ∧ (∀ w key values, set_xprop s w key values = .error "No connection")
    ∧ (∀ w key, remove_xprop s w key = .error "No connection")
    ∧ (∀ w, get_window_children s w = .error "No connection")
    ∧ (∀ fuel w, ∃ e, get_all_windows s fuel w = .error e) := by
  refine ⟨fun w key => ?_, fun w key => ?_, fun w key => ?_, fun w key values => ?_,
    fun w key => ?_, fun w => ?_, fun fuel w => ?_⟩
  · simp [has_xprop, get_connection, h]
  · simp [get_xprop, get_connection, h]
  · simp [get_one_xprop, get_xprop, get_connection, h]
  · simp [set_xprop, get_connection, h]
  · simp [remove_xprop, get_connection, h]
  · simp [get_window_children, get_connection, h]
  · exact ⟨"No connection", by simp [get_all_windows, get_window_children, get_connection, h]⟩

/-- Witness for C7 on a freshly constructed, never connected session. -/
theorem disconnected_session_ops_fail_witness :
    has_xprop (XWayland.new ":9") 4 GamescopeAtom.FocusedApp = .error "No connection"
    ∧ get_xprop (XWayland.new ":9") 4 GamescopeAtom.FocusedApp = .error "No connection"
    ∧ get_one_xprop (XWayland.new ":9") 4 GamescopeAtom.FocusedApp = .error "No connection"
    ∧ set_xprop (XWayland.new ":9") 4 GamescopeAtom.FPSLimit [60] = .error "No connection"
    ∧ remove_xprop (XWayland.new ":9") 4 GamescopeAtom.FPSLimit = .error "No connection"
    ∧ get_window_children (XWayland.new ":9") 4 = .error "No connection"
    ∧ (∃ e, get_all_windows (XWayland.new ":9") 3 4 = .error e) :=
  have h := disconnected_session_ops_fail (XWayland.new ":9") rfl
  ⟨h.1 4 GamescopeAtom.FocusedApp, h.2.1 4 GamescopeAtom.FocusedApp,
   h.2.2.1 4 GamescopeAtom.FocusedApp, h.2.2.2.1 4 GamescopeAtom.FPSLimit [60],
   h.2.2.2.2.1 4 GamescopeAtom.FPSLimit, h.2.2.2.2.2.1 4, h.2.2.2.2.2.2 3 4⟩

/-- C9: the watcher loop, run over the trace of event-wait outcomes, stops at
the first failed event-wait: nothing observed after the failure is ever sent
on the channel, the failing iteration itself sends nothing, and the channel
(typed as property-name strings) never carries an error value. -/
theorem watcher_loop_stops_on_error (atom_name : Nat → String)
    (evs post : List (Except String X11Event)) (e : String) :
    watcher_loop atom_name (evs ++ .error e :: post) = watcher_loop atom_name evs
    ∧ watcher_loop atom_name (.error e :: post) = [] := by
  refine ⟨?_, by simp [watcher_loop]⟩
  induction evs with
  | nil => simp [watcher_loop]
  | cons ev rest ih =>
    cases ev with
    | error e2 => simp [watcher_loop]
    | ok ev => cases ev <;> simp [watcher_loop, ih]

/-- C10: a connect whose underlying display connection attempt fails leaves
the session exactly as it was: the stored connection and the stored root
window id are unchanged, and the error is returned to the caller. -/
theorem connect_failure_preserves_state (s : XWayland)
    (attempt : Except String XServer) (e : String) (h : attempt = .error e) :
    (connect s attempt).1 = .error e
    ∧ (connect s attempt).2.conn = s.conn
    ∧ (connect s attempt).2.root_window_id = s.root_window_id := by
  simp [connect, h]

/-- Witness for C10 on a previously connected session whose reconnect attempt
is refused. -/
theorem connect_failure_preserves_state_witness :
    (connect sRich (.error "connection refused")).1 = .error "connection refused"
    ∧ (connect sRich (.error "connection refused")).2.conn = sRich.conn
    ∧ (connect sRich (.error "connection refused")).2.root_window_id =
        sRich.root_window_id :=
  connect_failure_preserves_state sRich (.error "connection refused")
    "connection refused" rfl

theorem discover_gamescope_step_fixed (connect_to : String → Option XServer)
    (acc : List String) (display : String) :
    discover_gamescope_step connect_to acc display = acc := by
  cases h : connect_to display <;> simp [discover_gamescope_step, h]

theorem discover_loop_never_pushes (connect_to : String → Option XServer)
    (x11_displays : List String) (acc : List String) :
    x11_displays.foldl (discover_gamescope_step connect_to) acc = acc := by
  induction x11_displays generalizing acc with
  | nil => rfl
  | cons d rest ih =>
    rw [List.foldl_cons, discover_gamescope_step_fixed]
    exact ih acc

/-- C1: the discovery loop of discover_gamescope_displays connects to each
candidate display and probes the marker property on its root window, but the
probe result is discarded and nothing is ever pushed onto the result vector,
so the function returns the empty list for every environment.  Concretely,
with display :1 reachable and its root window 7 carrying the marker property,
the function still returns Ok of the empty list, contradicting both the claim
and the function's own doc comment. -/
theorem discover_gamescope_diverges_from_claim :
    discover_gamescope_displays connectMarked [":1"] = .ok []
    ∧ x11_has_property srvMarked srvMarked.root FOCUSABLE_WINDOWS = true
    ∧ (∀ connect_to x11_displays,
        discover_gamescope_displays connect_to x11_displays = .ok []) := by
  refine ⟨rfl, rfl, fun connect_to x11_displays => ?_⟩
  simp only [discover_gamescope_displays]
  rw [discover_loop_never_pushes]

/-- C2: set_blur_mode on a connected session writes the single-element
encoding of the mode to the GAMESCOPE_FPS_LIMIT atom key and leaves the
GAMESCOPE_BLUR_MODE atom key untouched, for each of the three modes;
the claim (and the function's own name and doc comment) say the write should
target the blur-mode atom. -/
theorem set_blur_mode_writes_fps_limit_atom :
    result_prop (set_blur_mode sBare BlurMode.Off) 1 GamescopeAtom.FPSLimit.to_string
      = some [0]
    ∧ result_prop (set_blur_mode sBare BlurMode.Off) 1 GamescopeAtom.BlurMode.to_string
      = none
    ∧ result_prop (set_blur_mode sBare BlurMode.Cond) 1 GamescopeAtom.FPSLimit.to_string
      = some [1]
    ∧ result_prop (set_blur_mode sBare BlurMode.Cond) 1 GamescopeAtom.BlurMode.to_string
      = none
    ∧ result_prop (set_blur_mode sBare BlurMode.Always) 1 GamescopeAtom.FPSLimit.to_string
      = some [2]
    ∧ result_prop (set_blur_mode sBare BlurMode.Always) 1 GamescopeAtom.BlurMode.to_string
      = none := by
  refine ⟨rfl, rfl, rfl, rfl, rfl, rfl⟩

/-- C8 counterexample: the claim states every directory-entry name is either
turned into a display identifier or skipped silently without panicking.  The
entry name foo, which does not begin with X, makes discover_x11_displays
unwrap a None from strip_prefix: the whole function panics (modelled by the
Option result none). -/
theorem discover_x11_panics_on_non_x_name :
    discover_x11_displays ["foo"] = none := rfl

theorem discover_x11_loop_ok (socket_names : List String) :
    ∀ acc : List String, (∀ n ∈ socket_names, (stripPrefixX n).isSome) →
      socket_names.foldlM discover_x11_step acc
        = some (acc ++ socket_names.filterMap expected_display) := by
  induction socket_names with
  | nil => intro acc _; simp
  | cons socket rest ih =>
    intro acc hall
    have hx : (stripPrefixX socket).isSome := hall socket (by simp)
    have hrest : ∀ n ∈ rest, (stripPrefixX n).isSome := fun n hn => hall n (by simp [hn])
    obtain ⟨suffix, hs⟩ := Option.isSome_iff_exists.mp hx
    simp only [List.foldlM_cons, discover_x11_step, hs]
    by_cases hp : (parse_u64 suffix).isNone
    · simp [hp, ih acc hrest, List.filterMap_cons, expected_display, hs]
    · simp [hp, ih (acc ++ [":" ++ suffix]) hrest, List.filterMap_cons,
        expected_display, hs]

theorem discover_x11_loop_none (socket_names : List String) :
    ∀ acc : List String, (∃ n ∈ socket_names, stripPrefixX n = none) →
      socket_names.foldlM discover_x11_step acc = none := by
  induction socket_names with
  | nil => intro acc h; simp at h
  | cons socket rest ih =>
    intro acc h
    cases hs : stripPrefixX socket with
    | none => simp [List.foldlM_cons, discover_x11_step, hs]
    | some suffix =>
      obtain ⟨n, hn, hnx⟩ := h
      rcases List.mem_cons.mp hn with rfl | hn
      · rw [hs] at hnx
        exact absurd hnx (by simp)
      · simp only [List.foldlM_cons, discover_x11_step, hs]
        by_cases hp : (parse_u64 suffix).isNone
        · simp [hp, ih acc ⟨n, hn, hnx⟩]
        · simp [hp, ih (acc ++ [":" ++ suffix]) ⟨n, hn, hnx⟩]

/-- C8 amended: a directory entry whose name is X followed by a suffix that
parses as u64 contributes the display identifier built from that suffix, and
an entry whose name starts with X but whose suffix does not parse is skipped
silently; however an entry whose name does not begin with X (strip_prefix
yields no remainder) makes the whole function panic (the source unwraps the
None of strip_prefix), so the no-panic guarantee only holds when every entry
begins with X. -/
theorem discover_x11_displays_amended (socket_names : List String) :
    ((∀ n ∈ socket_names, (stripPrefixX n).isSome) →
      discover_x11_displays socket_names
        = some (socket_names.filterMap expected_display))
    ∧ ((∃ n ∈ socket_names, stripPrefixX n = none) →
      discover_x11_displays socket_names = none) := by
  constructor
  · intro hall
    simpa [discover_x11_displays] using discover_x11_loop_ok socket_names [] hall
  · intro hbad
    simpa [discover_x11_displays] using discover_x11_loop_none socket_names [] hbad

/-- Witness for the amended C8: well-formed entries X0 and X1 yield :0 and :1
while the non-numeric Xy is skipped; a listing containing foo panics. -/
theorem discover_x11_displays_amended_witness :
    discover_x11_displays ["X0", "Xy", "X1"] = some [":0", ":1"]
    ∧ discover_x11_displays ["X0", "foo"] = none := by
  constructor
  · have h := (discover_x11_displays_amended ["X0", "Xy", "X1"]).1 (by decide)
    exact h.trans (by decide)
  · exact (discover_x11_displays_amended ["X0", "foo"]).2
      ⟨"foo", by decide, by decide⟩

end GamescopeX11
